import Mathlib

/-
  Verification of the process lifecycle controller in src/bin/www.ts
  (file-management-api).  The source is shallowly embedded: the Port
  Resolver (normalizePort) as a pure function over strings, and the
  startup / shutdown logic as event traces produced by each handler,
  mirroring the order of effects in the source.
-/

namespace FileManagementApi

/-! ## Port Resolver (normalizePort, www.ts lines 15-22) -/

/-- Result of normalizePort: a number (numeric port), the original string
(named pipe), or the JS value false (invalid). -/
inductive ListenTarget where
  | numericPort (n : Int)
  | namedPipe (s : String)
  | invalid
deriving DecidableEq, Repr

/-- Whitespace skipped by the JS parseInt builtin (common cases). -/
def isJsWhitespace (c : Char) : Bool :=
  c = ' ' || c = '\t' || c = '\n' || c = '\r'

/-- Numeric value of one decimal digit character. -/
def digitToNat (c : Char) : Nat := c.toNat - 48

/-- Value of a decimal digit sequence, accumulated left to right as the
JS parseInt builtin does. -/
def digitsVal (ds : List Char) : Nat :=
  ds.foldl (fun a c => 10 * a + digitToNat c) 0

/-- Optional leading sign, as consumed by the JS parseInt builtin. -/
def splitSign (cs : List Char) : Int × List Char :=
  match cs with
  | [] => (1, [])
  | c :: t => if c = '-' then (-1, t) else if c = '+' then (1, t) else (1, c :: t)

/-- After whitespace and sign, the JS parseInt builtin takes the longest
leading run of decimal digits; NaN (none) when that run is empty,
otherwise the signed value of the run. -/
def parseTail (sign : Int) (cs : List Char) : Option Int :=
  if cs.takeWhile Char.isDigit = [] then none
  else some (sign * (digitsVal (cs.takeWhile Char.isDigit) : Int))

/-- The JS builtin parseInt(s, 10), assembled from the pieces above. -/
def jsParseInt10 (s : String) : Option Int :=
  parseTail (splitSign (s.data.dropWhile isJsWhitespace)).1
    (splitSign (s.data.dropWhile isJsWhitespace)).2

/-- normalizePort from www.ts: parseInt(val, 10); if NaN return val (named
pipe); if the number is nonnegative return it (port number); else false. -/
def normalizePort (val : String) : ListenTarget :=
  match jsParseInt10 val with
  | none => ListenTarget.namedPipe val
  | some p => if p ≥ 0 then ListenTarget.numericPort p else ListenTarget.invalid

/-! ## Event traces for the lifecycle code -/

/-- Observable effects of the lifecycle controller, in the order the
source performs them. -/
inductive Event where
  | log (m : String)
  | registerUncaughtExceptionHandler
  | connectAttempt
  | connectOk
  | connectFailed
  | initData
  | setPort
  | registerAppErrorHandler
  | createServer
  | registerUnhandledRejectionHandler
  | registerSigintHandler
  | listenCall
  | registerErrorHandler
  | registerListeningHandler
  | disconnectAttempt
  | disconnectOk
  | disconnectFailed
  | serverCloseCall
  | listenerClosed
  | processExit (code : Nat)
  | throwErr (sc ec : String)
deriving DecidableEq, Repr

/-- A listen-time error object, with the two fields www.ts inspects. -/
structure ListenError where
  syscall : String
  errCode : String
deriving DecidableEq, Repr

/-- onError from www.ts lines 25-40: rethrow unless the syscall is listen;
friendly log and exit 1 for EACCES and EADDRINUSE; rethrow otherwise. -/
def onError (e : ListenError) : List Event :=
  if e.syscall ≠ "listen" then [.throwErr e.syscall e.errCode]
  else if e.errCode = "EACCES" then
    [.log "requires elevated privileges", .processExit 1]
  else if e.errCode = "EADDRINUSE" then
    [.log "is already in use", .processExit 1]
  else [.throwErr e.syscall e.errCode]

/-- The uncaughtException handler (www.ts lines 51-58): log and exit 1,
with no disconnect and no listener close. -/
def uncaughtExceptionHandler : List Event :=
  [.log "UNCAUGHT EXCEPTION! Shutting down..",
   .log "uncaughtException Err", .log "uncaughtException Stack",
   .processExit 1]

/-- closeAllExternalServices (www.ts lines 90-99): await db disconnect
inside try/catch; a failure is logged and swallowed.  The Bool records
whether the disconnect fails. -/
def closeAllExternalServices (disconnectFails : Bool) : List Event :=
  [.log "Trying to disconnect MYSQL", .disconnectAttempt] ++
    (if disconnectFails then
      [.disconnectFailed, .log "Error while disconnecting MYSQL"]
     else
      [.disconnectOk, .log "Connection has been closed with MYSQL."])

/-- The unhandledRejection handler (www.ts lines 102-113): log, await
closeAllExternalServices, then server.close with exit 1 in the completion
callback. -/
def unhandledRejectionHandler (disconnectFails : Bool) : List Event :=
  [.log "UNHANDLED REJECTION! Shutting down...",
   .log "unhandledRejection Err", .log "unhandledRejection Stack"] ++
  closeAllExternalServices disconnectFails ++
  [.serverCloseCall, .listenerClosed, .processExit 1]

/-- The SIGINT handler (www.ts lines 115-121): log, await
closeAllExternalServices, log, then server.close with exit 0 in the
completion callback. -/
def sigintHandler (disconnectFails : Bool) : List Event :=
  [.log "SIGINT RECEIVED. Shutting down gracefully"] ++
  closeAllExternalServices disconnectFails ++
  [.log "Process terminated!", .serverCloseCall, .listenerClosed, .processExit 0]

/-- The module body of www.ts in execution order: register the
uncaughtException handler, then the async IIFE: attempt the db connect
inside try/catch (a failure is logged and startup continues), run the
initializer, configure the app, create the server, register the
unhandledRejection and SIGINT handlers, call server.listen, then register
the server error and listening handlers.  The Bool records whether the db
connect fails. -/
def mainProgram (connectFails : Bool) : List Event :=
  [.registerUncaughtExceptionHandler,
   .log "Trying to connect MYSQL", .connectAttempt] ++
  (if connectFails then
    [.connectFailed, .log "Error while connecting MYSQL"]
   else
    [.connectOk, .log "Connection has been established with MYSQL."]) ++
  [.initData, .setPort, .registerAppErrorHandler, .createServer,
   .registerUnhandledRejectionHandler, .registerSigintHandler,
   .listenCall, .registerErrorHandler, .registerListeningHandler]

/-! ## Trace observations -/

/-- Test for the dependency-disconnect attempt event. -/
def isDisconnectAttempt : Event → Bool
  | .disconnectAttempt => true
  | _ => false

/-- Test for the listener-close-call event. -/
def isServerCloseCall : Event → Bool
  | .serverCloseCall => true
  | _ => false

/-- Test for the listener-close-completion event. -/
def isListenerClosed : Event → Bool
  | .listenerClosed => true
  | _ => false

/-- Test for the process-exit event. -/
def isProcessExit : Event → Bool
  | .processExit _ => true
  | _ => false

/-- Exit code of the first process-exit event of a trace, if any. -/
def exitCodeOf (t : List Event) : Option Nat :=
  t.findSome? fun e => match e with | .processExit c => some c | _ => none

/-- Both kinds of event occur and the first p-event is strictly before the
first q-event. -/
def firesBefore (p q : Event → Bool) (t : List Event) : Bool :=
  match t.findIdx? p, t.findIdx? q with
  | some i, some j => decide (i < j)
  | _, _ => false

/-- A specific event occurs strictly before another one. -/
def eventBefore (a b : Event) (t : List Event) : Bool :=
  firesBefore (· == a) (· == b) t

/-- A specific event occurs immediately before another one. -/
def immediatelyBefore (a b : Event) (t : List Event) : Bool :=
  match t.findIdx? (· == a), t.findIdx? (· == b) with
  | some i, some j => decide (i + 1 = j)
  | _, _ => false

/-- The ordering the spec demands of a shutdown path: a disconnect attempt
strictly before the listener close completion, which is strictly before
the process exit. -/
def shutdownOrdered (t : List Event) : Bool :=
  firesBefore isDisconnectAttempt isListenerClosed t &&
  firesBefore isListenerClosed isProcessExit t

/-! ## Helper lemmas for the Port Resolver -/

theorem takeWhile_append_all {α : Type} (p : α → Bool) :
    ∀ (d r : List α), d.all p = true → r.head?.all (fun c => !p c) = true →
      (d ++ r).takeWhile p = d := by
  intro d
  induction d with
  | nil =>
    intro r _ hr
    cases r with
    | nil => rfl
    | cons c t =>
      simp only [Option.all, List.head?] at hr
      simp only [Bool.not_eq_true'] at hr
      simp [List.takeWhile_cons, hr]
  | cons c d' ih =>
    intro r hall hr
    simp only [List.all_cons, Bool.and_eq_true] at hall
    simp [List.takeWhile_cons, hall.1, ih r hall.2 hr]

theorem isDigit_not_ws {c : Char} (h : c.isDigit = true) :
    isJsWhitespace c = false := by
  cases hw : isJsWhitespace c
  · rfl
  · exfalso
    unfold isJsWhitespace at hw
    simp only [Bool.or_eq_true, decide_eq_true_eq] at hw
    rcases hw with ((h1 | h1) | h1) | h1 <;> subst h1 <;> exact absurd h (by decide)

theorem isDigit_ne_dash {c : Char} (h : c.isDigit = true) : ¬(c = '-') :=
  fun hc => absurd (hc ▸ h) (by decide)

theorem isDigit_ne_plus {c : Char} (h : c.isDigit = true) : ¬(c = '+') :=
  fun hc => absurd (hc ▸ h) (by decide)

/-! ## Claims about the Port Resolver -/

/-- C3: for every configuration string s, normalizePort returns
numericPort n when parseInt yields n with n nonnegative, namedPipe s when
parseInt yields NaN, invalid when parseInt yields a negative n, and these
three tags are the only possible outcomes. -/
theorem C3_normalizePort_total_cases (s : String) :
    (jsParseInt10 s = none → normalizePort s = ListenTarget.namedPipe s) ∧
    (∀ n : Int, jsParseInt10 s = some n → 0 ≤ n →
      normalizePort s = ListenTarget.numericPort n) ∧
    (∀ n : Int, jsParseInt10 s = some n → n < 0 →
      normalizePort s = ListenTarget.invalid) ∧
    ((∃ n : Int, 0 ≤ n ∧ normalizePort s = ListenTarget.numericPort n) ∨
      normalizePort s = ListenTarget.namedPipe s ∨
      normalizePort s = ListenTarget.invalid) := by
  refine ⟨?_, ?_, ?_, ?_⟩
  · intro h; simp [normalizePort, h]
  · intro n h hn; simp [normalizePort, h, ge_iff_le, hn]
  · intro n h hn; simp [normalizePort, h, ge_iff_le, not_le.mpr hn]
  · cases h : jsParseInt10 s with
    | none => right; left; simp [normalizePort, h]
    | some n =>
      rcases le_or_lt 0 n with hn | hn
      · exact Or.inl ⟨n, hn, by simp [normalizePort, h, ge_iff_le, hn]⟩
      · right; right; simp [normalizePort, h, ge_iff_le, not_le.mpr hn]

/-- Witness for C3 at the concrete configuration strings 5051 (numeric),
/tmp/app.sock (named pipe) and -3 (invalid). -/
theorem C3_witness :
    normalizePort "5051" = ListenTarget.numericPort 5051 ∧
    normalizePort "/tmp/app.sock" = ListenTarget.namedPipe "/tmp/app.sock" ∧
    normalizePort "-3" = ListenTarget.invalid :=
  ⟨(C3_normalizePort_total_cases "5051").2.1 5051 (by decide) (by decide),
   (C3_normalizePort_total_cases "/tmp/app.sock").1 (by decide),
   (C3_normalizePort_total_cases "-3").2.2.1 (-3) (by decide) (by decide)⟩

/-- C10: parseInt-based parsing is on the longest digit run, not the whole
string: a string that starts with a nonempty digit run followed by a
non-digit tail normalizes to the numeric port of that run, not to a named
pipe. -/
theorem C10_normalizePort_leading_digits (d r : List Char)
    (hne : d ≠ []) (hd : d.all Char.isDigit = true)
    (hr : r.head?.all (fun c => !c.isDigit) = true) :
    normalizePort ⟨d ++ r⟩ = ListenTarget.numericPort (digitsVal d) := by
  cases d with
  | nil => exact absurd rfl hne
  | cons c d' =>
    have hc : c.isDigit = true := by
      have h := hd
      simp only [List.all_cons, Bool.and_eq_true] at h
      exact h.1
    have hdrop : ((c :: d') ++ r).dropWhile isJsWhitespace = (c :: d') ++ r := by
      rw [List.cons_append]
      simp [List.dropWhile_cons, isDigit_not_ws hc]
    have hsplit : splitSign ((c :: d') ++ r) = (1, (c :: d') ++ r) := by
      rw [List.cons_append]
      simp [splitSign, isDigit_ne_dash hc, isDigit_ne_plus hc]
    have htake : ((c :: d') ++ r).takeWhile Char.isDigit = c :: d' :=
      takeWhile_append_all Char.isDigit (c :: d') r hd hr
    have hparse : jsParseInt10 ⟨(c :: d') ++ r⟩ = some (digitsVal (c :: d') : Int) := by
      unfold jsParseInt10
      have hdata : (String.mk ((c :: d') ++ r)).data = (c :: d') ++ r := rfl
      rw [hdata, hdrop, hsplit]
      unfold parseTail
      rw [htake]
      simp
    unfold normalizePort
    rw [hparse]
    simp [ge_iff_le, Int.natCast_nonneg]

/-- Witness for C10 at the concrete string 80abc, which normalizes to the
numeric port 80. -/
theorem C10_witness : normalizePort "80abc" = ListenTarget.numericPort 80 := by
  have h := C10_normalizePort_leading_digits ['8', '0'] ['a', 'b', 'c']
    (by decide) (by decide) (by decide)
  have e : ("80abc" : String) = ⟨['8', '0'] ++ ['a', 'b', 'c']⟩ := by decide
  rw [e, h]
  decide

/-! ## Claims about the shutdown paths -/

/-- C1 counterexample: in the bind-error shutdown path (a listen error
with code EADDRINUSE) the process exits with code 1, yet no dependency
disconnect is attempted and the listener is never closed, so the claimed
disconnect-close-exit ordering fails on this trigger. -/
theorem C1_counterexample :
    exitCodeOf (onError ⟨"listen", "EADDRINUSE"⟩) = some 1 ∧
    (onError ⟨"listen", "EADDRINUSE"⟩).any isDisconnectAttempt = false ∧
    (onError ⟨"listen", "EADDRINUSE"⟩).any isListenerClosed = false ∧
    shutdownOrdered (onError ⟨"listen", "EADDRINUSE"⟩) = false := by decide

/-- C1 amended: in the unhandled-fault and operator-interrupt shutdown
paths the dependency disconnect is attempted before the listener close and
the close completes before the process exits, whether or not the
disconnect fails; the bind-error trigger instead logs and exits directly,
with no disconnect attempt and no listener close. -/
theorem C1_disconnect_close_exit_order :
    (∀ b : Bool,
      shutdownOrdered (unhandledRejectionHandler b) = true ∧
      shutdownOrdered (sigintHandler b) = true ∧
      firesBefore isDisconnectAttempt isServerCloseCall (unhandledRejectionHandler b) = true ∧
      firesBefore isDisconnectAttempt isServerCloseCall (sigintHandler b) = true) ∧
    onError ⟨"listen", "EACCES"⟩ =
      [.log "requires elevated privileges", .processExit 1] ∧
    onError ⟨"listen", "EADDRINUSE"⟩ =
      [.log "is already in use", .processExit 1] := by
  refine ⟨?_, by decide, by decide⟩
  intro b
  cases b <;> decide

/-- C2 counterexample: there is no guard in the code; a second invocation
of the SIGINT shutdown sequence is not a no-op, and two invocations
attempt the dependency disconnect twice and call the listener close twice
instead of exactly once. -/
theorem C2_counterexample :
    (sigintHandler false ++ sigintHandler false).countP isDisconnectAttempt = 2 ∧
    (sigintHandler false ++ sigintHandler false).countP isServerCloseCall = 2 ∧
    sigintHandler false ≠ [] := by decide

/-- C2 amended: each single invocation of a shutdown handler attempts the
disconnect and the listener close exactly once, but there is no
ProcessState guard, so two racing invocations (any pair of handlers, with
any disconnect outcomes) attempt the disconnect twice and call close
twice. -/
theorem C2_no_idempotence_guard :
    ∀ b1 b2 : Bool,
      (sigintHandler b1).countP isDisconnectAttempt = 1 ∧
      (sigintHandler b1).countP isServerCloseCall = 1 ∧
      (unhandledRejectionHandler b1).countP isDisconnectAttempt = 1 ∧
      (unhandledRejectionHandler b1).countP isServerCloseCall = 1 ∧
      (sigintHandler b1 ++ sigintHandler b2).countP isDisconnectAttempt = 2 ∧
      (sigintHandler b1 ++ sigintHandler b2).countP isServerCloseCall = 2 ∧
      (sigintHandler b1 ++ unhandledRejectionHandler b2).countP isDisconnectAttempt = 2 ∧
      (sigintHandler b1 ++ unhandledRejectionHandler b2).countP isServerCloseCall = 2 ∧
      (unhandledRejectionHandler b1 ++ unhandledRejectionHandler b2).countP isDisconnectAttempt = 2 ∧
      (unhandledRejectionHandler b1 ++ unhandledRejectionHandler b2).countP isServerCloseCall = 2 := by
  intro b1 b2
  cases b1 <;> cases b2 <;> decide

/-- C4 counterexample: in the module execution order, server.listen is
called strictly before the bind-error handler is registered, so not all
three triggers are registered before the bind is initiated. -/
theorem C4_counterexample :
    eventBefore .listenCall .registerErrorHandler (mainProgram false) = true ∧
    eventBefore .registerErrorHandler .listenCall (mainProgram false) = false := by decide

/-- C4 amended: the unhandled-fault and operator-interrupt handlers (and
the uncaughtException handler) are registered before the listen call, but
the bind-error handler is registered immediately after the listen call,
in the same synchronous turn, not before it. -/
theorem C4_registration_order :
    ∀ b : Bool,
      eventBefore .registerUncaughtExceptionHandler .listenCall (mainProgram b) = true ∧
      eventBefore .registerUnhandledRejectionHandler .listenCall (mainProgram b) = true ∧
      eventBefore .registerSigintHandler .listenCall (mainProgram b) = true ∧
      immediatelyBefore .listenCall .registerErrorHandler (mainProgram b) = true := by
  intro b
  cases b <;> decide

/-- C5: exit codes match the intent table: a listen error with code EACCES
or EADDRINUSE exits with code 1, the operator interrupt exits with code 0,
and the unhandled-fault path exits with code 1, whether or not the
disconnect fails. -/
theorem C5_exit_codes (b : Bool) (sc ec : String)
    (hs : sc = "listen") (hc : ec = "EACCES" ∨ ec = "EADDRINUSE") :
    exitCodeOf (onError ⟨sc, ec⟩) = some 1 ∧
    exitCodeOf (sigintHandler b) = some 0 ∧
    exitCodeOf (unhandledRejectionHandler b) = some 1 := by
  subst hs
  rcases hc with h | h <;> subst h <;> cases b <;> decide

/-- Witness for C5 at a concrete EACCES listen error with a successful
disconnect. -/
theorem C5_witness :
    exitCodeOf (onError ⟨"listen", "EACCES"⟩) = some 1 ∧
    exitCodeOf (sigintHandler false) = some 0 ∧
    exitCodeOf (unhandledRejectionHandler false) = some 1 :=
  C5_exit_codes false "listen" "EACCES" rfl (Or.inl rfl)

/-- C6: the bind-error handler rethrows any error whose syscall is not
listen, and rethrows a listen error whose code is neither EACCES nor
EADDRINUSE, in both cases without exiting, disconnecting or closing. -/
theorem C6_reraise_unclassified (sc ec : String) :
    (sc ≠ "listen" → onError ⟨sc, ec⟩ = [.throwErr sc ec]) ∧
    (sc = "listen" → ec ≠ "EACCES" → ec ≠ "EADDRINUSE" →
      onError ⟨sc, ec⟩ = [.throwErr sc ec]) := by
  constructor
  · intro h
    simp [onError, h]
  · intro h1 h2 h3
    simp [onError, h1, h2, h3]

/-- Witness for C6 at a non-listen error and at a listen error with an
unclassified code. -/
theorem C6_witness :
    onError ⟨"connect", "ECONNREFUSED"⟩ = [.throwErr "connect" "ECONNREFUSED"] ∧
    onError ⟨"listen", "EBADF"⟩ = [.throwErr "listen" "EBADF"] :=
  ⟨(C6_reraise_unclassified "connect" "ECONNREFUSED").1 (by decide),
   (C6_reraise_unclassified "listen" "EBADF").2 rfl (by decide) (by decide)⟩

/-- C7: the synchronous uncaughtException handler logs and exits with code
1 without attempting any dependency disconnect or any listener close. -/
theorem C7_uncaught_exits_directly :
    exitCodeOf uncaughtExceptionHandler = some 1 ∧
    uncaughtExceptionHandler.any isDisconnectAttempt = false ∧
    uncaughtExceptionHandler.any isServerCloseCall = false ∧
    uncaughtExceptionHandler.any isListenerClosed = false := by decide

/-- C8: a dependency-connect failure at startup is non-fatal: the failure
is recorded and the startup sequence still reaches the listen call, in
the same way as on the success path. -/
theorem C8_connect_failure_nonfatal :
    ∀ b : Bool,
      (mainProgram b).contains .listenCall = true ∧
      (mainProgram true).contains .connectFailed = true ∧
      eventBefore .connectFailed .listenCall (mainProgram true) = true ∧
      eventBefore .connectAttempt .listenCall (mainProgram b) = true := by
  intro b
  cases b <;> decide

/-- C9: a dependency-disconnect failure during shutdown is non-fatal: the
failure is recorded and both shutdown paths still proceed to the listener
close and exit with the intended code (0 for the interrupt, 1 for the
unhandled fault). -/
theorem C9_disconnect_failure_nonfatal :
    (sigintHandler true).contains .disconnectFailed = true ∧
    shutdownOrdered (sigintHandler true) = true ∧
    exitCodeOf (sigintHandler true) = some 0 ∧
    (unhandledRejectionHandler true).contains .disconnectFailed = true ∧
    shutdownOrdered (unhandledRejectionHandler true) = true ∧
    exitCodeOf (unhandledRejectionHandler true) = some 1 := by decide

end FileManagementApi
